import Mathlib

/-!
Verification of the QA-documentation generator pipeline.

Shallow embedding, translated from the Python sources:
  * src/db/redis_client.py      : sliding-window rate limiter over a redis sorted set
  * src/models/schema.py        : the pydantic data model (ElementType, TestStep, TestCase, ...)
  * src/analysis/test_case_generator.py : LLM response parsing and test-case synthesis
  * src/worker/tasks.py         : per-URL processing and job-level aggregation
  * src/crawler/website_analyzer.py     : analyze_url control flow

External collaborators (redis, the LLM endpoint, playwright, mongo) are modelled
as explicit parameters / environment records; the control flow and the data
transformations around them are translated line by line from the source.
-/

/-! ## JSON values

The decoded form that Python's json.loads produces.  Numbers are modelled as
integers (the model replies used by the parser only carry integral step
numbers).  Objects preserve key order, as Python dicts do.  -/

inductive Json where
  | null : Json
  | bool (b : Bool) : Json
  | num (n : Int) : Json
  | str (s : String) : Json
  | arr (items : List Json) : Json
  | obj (fields : List (String × Json)) : Json

/-- Dictionary lookup (dict.get).  Decoded Python dicts have unique keys, so
taking the first match is faithful. -/
def jlookup (fields : List (String × Json)) (k : String) : Option Json :=
  (fields.find? (fun p => p.1 == k)).map (fun p => p.2)

/-- Python truthiness of a decoded JSON value (used by
`not tc_data['test_case_id']` in _parse_test_cases_response). -/
def jfalsy : Json → Bool
  | Json.null => true
  | Json.bool b => !b
  | Json.num n => n == 0
  | Json.str s => s == ""
  | Json.arr a => a.isEmpty
  | Json.obj o => o.isEmpty

/-- pydantic-v1 coercion of a JSON value into a `str` field: strings pass,
ints/floats/bools are stringified, None and containers fail validation. -/
def jsonToStr : Json → Option String
  | Json.str s => some s
  | Json.num n => some (toString n)
  | Json.bool b => some (if b then "True" else "False")
  | _ => none

/-- pydantic-v1 coercion of a JSON value into an `int` field: ints pass,
numeric strings are parsed, bools are 1/0, everything else fails. -/
def jsonToInt : Json → Option Int
  | Json.num n => some n
  | Json.str s => s.toInt?
  | Json.bool b => some (if b then 1 else 0)
  | _ => none

/-! ## Data model (src/models/schema.py) -/

inductive JobStatus where
  | pending | processing | completed | failed
deriving DecidableEq

/-- ElementType(str, Enum), schema.py lines 19-40. -/
inductive ElementType where
  | button | input_text | input_password | input_email | input_number
  | input_checkbox | input_radio | select_dropdown | textarea | link
  | form | image | heading | paragraph | list | table | label | iframe
  | video | general_container
deriving DecidableEq

/-- The .value string of each ElementType member. -/
def ElementType.value : ElementType → String
  | .button => "button"
  | .input_text => "input_text"
  | .input_password => "input_password"
  | .input_email => "input_email"
  | .input_number => "input_number"
  | .input_checkbox => "input_checkbox"
  | .input_radio => "input_radio"
  | .select_dropdown => "select_dropdown"
  | .textarea => "textarea"
  | .link => "link"
  | .form => "form"
  | .image => "image"
  | .heading => "heading"
  | .paragraph => "paragraph"
  | .list => "list"
  | .table => "table"
  | .label => "label"
  | .iframe => "iframe"
  | .video => "video"
  | .general_container => "general_container"

inductive TestCaseType where
  | functional | usability | edge_case | accessibility_check
deriving DecidableEq

inductive TestCasePriority where
  | high | medium | low
deriving DecidableEq

/-- Position (schema.py lines 58-63). -/
structure Position where
  x : Int
  y : Int
  width : Int
  height : Int
deriving DecidableEq

/-- UIElement (schema.py lines 66-73).  `attributes` is a string-keyed dict. -/
structure UIElement where
  element_id : String
  element_type : ElementType
  selector : String
  attributes : List (String × String) := []
  visible_text : Option String := none
  position : Option Position := none
deriving DecidableEq

/-- TestStep (schema.py lines 76-80).  `step_number : int` carries no
positivity constraint in the schema. -/
structure TestStep where
  step_number : Int
  action : String
  expected_result : String
deriving DecidableEq

/-- TestCase (schema.py lines 83-92).  `steps : List[TestStep]` carries no
non-emptiness constraint.  `priority` is Optional with default MEDIUM; the
response parser always supplies a value, so it is modelled as total here. -/
structure TestCase where
  test_case_id : String
  test_case_title : String
  type : TestCaseType
  priority : TestCasePriority
  description : String
  preconditions : List String
  steps : List TestStep
  related_element_id : Option String
deriving DecidableEq

/-! ## Rate limiter (src/db/redis_client.py, check_rate_limit lines 37-67)

The per-domain redis sorted set `rate_limit:{domain}` is modelled as a list of
(member, score) pairs with unique members.  `check_rate_limit` touches only the
key of the given domain, so the state passed here is that one sorted set. -/

/-- A redis sorted set: (member, score) pairs, members unique. -/
abbrev ZSet := List (String × Int)

/-- ZREMRANGEBYSCORE key lo hi: drop members whose score lies in [lo, hi]. -/
def zremrangebyscore (z : ZSet) (lo hi : Int) : ZSet :=
  z.filter (fun p => !(decide (lo ≤ p.2) && decide (p.2 ≤ hi)))

/-- ZCARD: the number of members. -/
def zcard (z : ZSet) : Nat := z.length

/-- ZADD key {member: score}: update the member's score if it is already
present, otherwise append it. -/
def zadd (z : ZSet) (m : String) (s : Int) : ZSet :=
  if z.any (fun p => p.1 == m) then z.map (fun p => if p.1 == m then (m, s) else p)
  else z ++ [(m, s)]

/-- check_rate_limit (redis_client.py lines 37-67) acting on the sorted set of
one domain.  `connected` models `self.client` being non-None; `now` is
`int(time.time())`.  Returns the result and the new sorted-set state.  The
member added is `str(now)`, the stringified current second; the 120 s key
expiry (line 65) only bounds idle growth and does not affect the result. -/
def check_rate_limit (connected : Bool) (z : ZSet) (now : Int) (requests_per_minute : Int) :
    Bool × ZSet :=
  if !connected then (true, z)
  else
    let purged := zremrangebyscore z 0 (now - 60)
    if requests_per_minute ≤ (zcard purged : Int) then (false, purged)
    else (true, zadd purged (toString now) now)

/-! ## LLM response parsing (test_case_generator.py, _parse_test_cases_response
lines 422-495)

The Python function takes the raw reply string, slices out the text between the
first opening and the last closing square bracket, runs json.loads on it, and
coerces each decoded record into a TestCase, aborting the whole batch (and
returning []) on any parse or validation error.

json.loads itself is the Python standard library; the embedding takes the
decoding function as the `loads` parameter (an executable JSON parser is
defined further below and is used to instantiate it in concrete runs).
uuid.uuid4-based token generation is modelled by the `fresh` parameter, indexed
by how many tokens the call has generated so far. -/

/-- Lines 441-448: json_start = response.find of the first opening bracket,
json_end = response.rfind of the last closing bracket, plus one; slice when
both exist, otherwise try the whole reply. -/
def extractJsonContent (response : String) : String :=
  let cs := response.toList
  match cs.indexOf? '[', cs.reverse.indexOf? ']' with
  | some i, some rj =>
      let jEnd := cs.length - rj
      String.mk ((cs.drop i).take (jEnd - i))
  | _, _ => response

/-- step_data.get with default 1 (line 465), then pydantic int coercion. -/
def stepNumberOf (o : List (String × Json)) : Option Int :=
  match jlookup o "step_number" with
  | none => some 1
  | some v => jsonToInt v

/-- step_data.get with default text (line 466), then pydantic str coercion. -/
def actionOf (o : List (String × Json)) : Option String :=
  match jlookup o "action" with
  | none => some "No action provided"
  | some v => jsonToStr v

/-- step_data.get with default text (line 467), then pydantic str coercion. -/
def expectedResultOf (o : List (String × Json)) : Option String :=
  match jlookup o "expected_result" with
  | none => some "No expected result provided"
  | some v => jsonToStr v

/-- One step record (lines 463-469).  A non-dict step record makes
step_data.get raise, which aborts the batch, hence `none`. -/
def coerceStep : Json → Option TestStep
  | Json.obj o =>
      match stepNumberOf o, actionOf o, expectedResultOf o with
      | some n, some a, some r => some ⟨n, a, r⟩
      | _, _, _ => none
  | _ => none

/-- Lines 457-458: a missing or falsy test_case_id is replaced by a freshly
generated token (and the generation counter advances); otherwise the supplied
value is kept, coerced to str.  Returns (id, new counter). -/
def tcIdOf (fresh : Nat → String) (k : Nat) (rec : List (String × Json)) :
    Option (String × Nat) :=
  match jlookup rec "test_case_id" with
  | none => some (fresh k, k + 1)
  | some v =>
      if jfalsy v then some (fresh k, k + 1)
      else (jsonToStr v).map (fun s => (s, k))

/-- Lines 461-469: the steps list.  Absent key yields an empty list (no
placeholder step is substituted).  A present value must be a JSON array of
step objects; iterating an empty dict or empty string yields no iterations in
Python, hence also an empty list; any other shape raises during iteration or
at step_data.get and aborts the batch. -/
def stepsOf (rec : List (String × Json)) : Option (List TestStep) :=
  match jlookup rec "steps" with
  | none => some []
  | some (Json.arr a) => a.mapM coerceStep
  | some (Json.obj o) => if o.isEmpty then some [] else none
  | some (Json.str s) => if s == "" then some [] else none
  | some _ => none

/-- Line 475: TestCaseType(tc_data.get with default "functional", lowered).
A non-string present value has no .lower() and aborts; an unknown enum value
raises ValueError and aborts. -/
def typeOf (rec : List (String × Json)) : Option TestCaseType :=
  match jlookup rec "type" with
  | none => some TestCaseType.functional
  | some (Json.str s) =>
      if s.toLower == "functional" then some TestCaseType.functional
      else if s.toLower == "usability" then some TestCaseType.usability
      else if s.toLower == "edge_case" then some TestCaseType.edge_case
      else if s.toLower == "accessibility_check" then some TestCaseType.accessibility_check
      else none
  | some _ => none

/-- Line 476: TestCasePriority(tc_data.get with default "medium", lowered). -/
def priorityOf (rec : List (String × Json)) : Option TestCasePriority :=
  match jlookup rec "priority" with
  | none => some TestCasePriority.medium
  | some (Json.str s) =>
      if s.toLower == "high" then some TestCasePriority.high
      else if s.toLower == "medium" then some TestCasePriority.medium
      else if s.toLower == "low" then some TestCasePriority.low
      else none
  | some _ => none

/-- Line 474: tc_data.get the title, default "No title provided". -/
def titleOf (rec : List (String × Json)) : Option String :=
  match jlookup rec "test_case_title" with
  | none => some "No title provided"
  | some v => jsonToStr v

/-- Line 477: tc_data.get the description, default "No description provided". -/
def descriptionOf (rec : List (String × Json)) : Option String :=
  match jlookup rec "description" with
  | none => some "No description provided"
  | some v => jsonToStr v

/-- Line 478: preconditions, default empty list; pydantic List coercion
accepts sequences of str-coercible items and rejects str/dict/scalars. -/
def preconditionsOf (rec : List (String × Json)) : Option (List String) :=
  match jlookup rec "preconditions" with
  | none => some []
  | some (Json.arr a) => a.mapM jsonToStr
  | some _ => none

/-- One record of the decoded batch (lines 455-483).  `element_id` is the
parser argument that becomes related_element_id (line 480) regardless of any
field in the record.  Returns the TestCase and the new fresh-token counter. -/
def coerceRecord (fresh : Nat → String) (element_id : Option String) (k : Nat)
    (rec : List (String × Json)) : Option (TestCase × Nat) :=
  match tcIdOf fresh k rec, stepsOf rec, typeOf rec, priorityOf rec,
        titleOf rec, descriptionOf rec, preconditionsOf rec with
  | some (idv, k2), some st, some ty, some pr, some ti, some de, some pc =>
      some ({ test_case_id := idv, test_case_title := ti, type := ty,
              priority := pr, description := de, preconditions := pc,
              steps := st, related_element_id := element_id }, k2)
  | _, _, _, _, _, _, _ => none

/-- The record loop (lines 454-483).  A non-dict record raises at the
membership test or the id assignment and aborts the batch. -/
def coerceRecords (fresh : Nat → String) (element_id : Option String) :
    Nat → List Json → Option (List TestCase)
  | _, [] => some []
  | k, Json.obj rec :: rest =>
      match coerceRecord fresh element_id k rec with
      | none => none
      | some (tc, k2) =>
          match coerceRecords fresh element_id k2 rest with
          | none => none
          | some tcs => some (tc :: tcs)
  | _, _ :: _ => none

/-- _parse_test_cases_response (lines 422-495).  Any decode failure, any
record-level failure, and any non-array decode (whose iteration either yields
nothing or raises at the first record) all end in the empty list via the
except handlers at lines 486-495. -/
def parse_test_cases_response (loads : String → Option Json) (fresh : Nat → String)
    (response url : String) (element_id : Option String) : List TestCase :=
  match loads (extractJsonContent response) with
  | none => []
  | some (Json.arr items) => (coerceRecords fresh element_id 0 items).getD []
  | some _ => []

/-! ## Test-case synthesis (test_case_generator.py lines 38-163)

Prompt construction (_create_page_level_prompt, _create_element_prompt,
_get_test_case_guidance) is pure string formatting fed to the OpenAI call
(_call_llm_api), which returns the reply text or None on any API error or a
missing key.  The prompt build plus the call are modelled together as the
abstract collaborator functions `llm_page` / `llm_element`; what matters to the
control flow is only whether they are consulted and what text they return. -/

/-- The string list at test_case_generator.py lines 143-145. -/
def content_only_types : List String :=
  ["paragraph", "heading", "image", "video", "general_container"]

/-- _generate_element_test_cases (lines 122-163).  Returns the test cases and
whether the LLM collaborator was consulted.  The guard compares the str-enum
element_type against the string list, with the (always true on that branch)
extra conjunct value != "link" exactly as in the source. -/
def generate_element_test_cases (llm_element : UIElement → Option String)
    (loads : String → Option Json) (fresh : Nat → String)
    (url page_title : String) (element : UIElement) (all_elements : List UIElement) :
    List TestCase × Bool :=
  if element.element_type.value ∈ content_only_types ∧ element.element_type.value ≠ "link" then
    ([], false)
  else
    match llm_element element with
    | none => ([], true)
    | some response =>
        (parse_test_cases_response loads fresh response url (some element.element_id), true)

/-- _generate_page_level_test_cases (lines 73-120): build the page summary
prompt, call the LLM, and parse the reply with element_id = None. -/
def generate_page_level_test_cases
    (llm_page : String → String → List UIElement → Option String)
    (loads : String → Option Json) (fresh : Nat → String)
    (url page_title : String) (elements : List UIElement) : List TestCase :=
  match llm_page url page_title elements with
  | none => []
  | some response => parse_test_cases_response loads fresh response url none

/-- generate_test_cases (lines 38-71): page-level cases first, then the
element-level cases of each element in order. -/
def generate_test_cases
    (llm_page : String → String → List UIElement → Option String)
    (llm_element : UIElement → Option String)
    (loads : String → Option Json) (fresh : Nat → String)
    (url page_title : String) (elements : List UIElement) : List TestCase :=
  generate_page_level_test_cases llm_page loads fresh url page_title elements
    ++ elements.flatMap
        (fun e => (generate_element_test_cases llm_element loads fresh url page_title e elements).1)

/-! ## Crawl session (website_analyzer.py, analyze_url lines 110-191)

The browser collaborator is modelled by an environment record describing what
each step of the try block does: raise, or produce a value.  The cache lookup
and the rate-limit sleep before the try block do not affect the returned
value.  `initRaises` models `self.initialize()` (line 145) raising, which
happens before the try block and propagates to the caller. -/

structure CrawlEnv where
  /-- initialize() at line 145 raises (re-raised at line 40). -/
  initRaises : Bool
  /-- context.new_page() at line 153 raises (page stays None). -/
  newPageRaises : Bool
  /-- _setup_authentication at line 156 raises (re-raised at line 108). -/
  authRaises : Bool
  /-- page.goto at line 159: none = raises (e.g. timeout); some none = no
  response object; some (some s) = response with HTTP status s. -/
  navigation : Option (Option Int)
  /-- asyncio.sleep at line 170 raises (e.g. cancellation). -/
  settleRaises : Bool
  /-- page.title() at line 173: none = raises, some t = the title. -/
  titleResult : Option String
  /-- _extract_ui_elements at line 177: none = raises, some es = elements. -/
  extractResult : Option (List UIElement)
  /-- page.content() at line 181: none = raises, some html = the markup. -/
  contentResult : Option String
  /-- cache_dom_snapshot at line 182 raises. -/
  cacheStoreRaises : Bool
deriving DecidableEq

structure AnalyzeOutcome where
  /-- none when an exception escapes analyze_url; some (title?, elements)
  when it returns normally. -/
  ret : Option (Option String × List UIElement)
  pageCreated : Bool
  pageClosed : Bool
deriving DecidableEq

/-- analyze_url (lines 110-191).  Everything inside the try block (lines
151-185) is converted to (None, []) by the except handler (lines 186-188); the
finally block (lines 189-191) closes the page whenever one was created. -/
def analyze_url (env : CrawlEnv) : AnalyzeOutcome :=
  if env.initRaises then { ret := none, pageCreated := false, pageClosed := false }
  else if env.newPageRaises then
    { ret := some (none, []), pageCreated := false, pageClosed := false }
  else
    let body : Option String × List UIElement :=
      if env.authRaises then (none, [])
      else
        match env.navigation with
        | none => (none, [])
        | some none => (none, [])
        | some (some status) =>
            if 400 ≤ status then (none, [])
            else if env.settleRaises then (none, [])
            else
              match env.titleResult with
              | none => (none, [])
              | some title =>
                  match env.extractResult with
                  | none => (none, [])
                  | some elements =>
                      match env.contentResult with
                      | none => (none, [])
                      | some _ =>
                          if env.cacheStoreRaises then (none, [])
                          else (some title, elements)
    { ret := some body, pageCreated := true, pageClosed := true }

/-! ## Job orchestration (worker/tasks.py lines 42-196)

process_url's fallible collaborators are modelled by an environment record;
the test-case generator (which is total: it catches its own exceptions) is
passed as a function parameter. -/

inductive UrlStatus where
  | completed | failed
deriving DecidableEq

/-- The per-URL dict returned by process_url (lines 99-105 / line 120). -/
structure UrlResult where
  status : UrlStatus
  url : String
  error : Option String
  element_count : Nat
  test_case_count : Nat
deriving DecidableEq

structure UrlEnv where
  /-- _ensure_connections or the PROCESSING status update raising, with the
  exception text (lines 59-62). -/
  connectError : Option String
  /-- what website_analyzer.analyze_url returns at line 70 (it never raises
  once the session is up, see analyze_url above). -/
  analyzeResult : Option String × List UIElement
  /-- document generation or persistence (lines 92-96) raising, with the
  exception text. -/
  saveError : Option String
deriving DecidableEq

/-- process_url (tasks.py lines 42-120).  A raised exception is caught at
line 117 and recorded as a failed outcome whose error text is
"Error processing URL {url}: {str(e)}".  Zero extracted elements raise
"No UI elements found at URL: {url}" at line 75.  An empty test-case list only
logs a warning (lines 80-81) and the URL still completes. -/
def processUrl (gen : String → String → List UIElement → List TestCase)
    (url : String) (env : UrlEnv) : UrlResult :=
  let fail : String → UrlResult := fun msg =>
    { status := UrlStatus.failed, url := url,
      error := some ("Error processing URL " ++ url ++ ": " ++ msg),
      element_count := 0, test_case_count := 0 }
  match env.connectError with
  | some m => fail m
  | none =>
      let pageTitle := env.analyzeResult.1
      let elements := env.analyzeResult.2
      if elements.isEmpty then fail ("No UI elements found at URL: " ++ url)
      else
        let titleArg := match pageTitle with
          | some t => if t == "" then "Unknown" else t
          | none => "Unknown"
        let test_cases := gen url titleArg elements
        match env.saveError with
        | some m => fail m
        | none =>
            { status := UrlStatus.completed, url := url, error := none,
              element_count := elements.length, test_case_count := test_cases.length }

/-- The dict returned by process_job: either the normal summary (lines
175-181) or the error form (line 186). -/
inductive JobReturn where
  | ok (status : String) (url_count success_count : Nat) (results : List UrlResult)
  | err (error : String)
deriving DecidableEq

/-- process_job's observable outcome: its return value plus the final job
status (and message) it wrote to the job store. -/
structure JobOutcome where
  ret : JobReturn
  dbStatus : JobStatus
  dbMessage : Option String
deriving DecidableEq

/-- process_job (tasks.py lines 123-186).  `job` carries the stored URL list
paired with each URL's processing environment; None models a missing job
record, which raises at line 143 and is caught at line 182.  URLs are
processed sequentially in listed order; process_url never raises, so every
URL is attempted.  success_count counts results whose status is completed. -/
def processJob (gen : String → String → List UIElement → List TestCase)
    (job_id : String) (job : Option (List (String × UrlEnv))) : JobOutcome :=
  match job with
  | none =>
      let m := "Error processing job " ++ job_id ++ ": Job not found: " ++ job_id
      { ret := JobReturn.err m, dbStatus := JobStatus.failed, dbMessage := some m }
  | some jobUrls =>
      let results := jobUrls.map (fun p => processUrl gen p.1 p.2)
      let success_count := results.countP (fun r => decide (r.status = UrlStatus.completed))
      if success_count = jobUrls.length then
        { ret := JobReturn.ok "completed" jobUrls.length success_count results,
          dbStatus := JobStatus.completed, dbMessage := none }
      else if 0 < success_count then
        { ret := JobReturn.ok "partially_completed" jobUrls.length success_count results,
          dbStatus := JobStatus.completed,
          dbMessage := some ("Partially completed: " ++ toString success_count ++ "/"
            ++ toString jobUrls.length ++ " URLs processed") }
      else
        { ret := JobReturn.ok "failed" jobUrls.length success_count results,
          dbStatus := JobStatus.failed, dbMessage := some "All URLs failed processing" }

/-! ## An executable JSON decoder

A small fuel-bounded recursive-descent decoder used to instantiate the `loads`
parameter on concrete inputs.  It accepts the JSON subset the concrete runs
below use (null, booleans, integers, escape-free strings, arrays, objects) and
agrees with Python's json.loads on that subset; anything else is rejected. -/

def skipWs : List Char → List Char
  | c :: cs => if c = ' ' ∨ c = '\n' ∨ c = '\t' ∨ c = '\r' then skipWs cs else c :: cs
  | [] => []

/-- Body of a string literal after the opening quote; escapes are rejected. -/
def strLitAux : List Char → List Char → Option (String × List Char)
  | acc, c :: cs =>
      if c = '"' then some (String.mk acc.reverse, cs)
      else if c = '\\' then none
      else strLitAux (c :: acc) cs
  | _, [] => none

def takeDigits : List Char → List Char × List Char
  | c :: cs =>
      if c.isDigit then
        let (d, r) := takeDigits cs
        (c :: d, r)
      else ([], c :: cs)
  | [] => ([], [])

def digitsToNat (ds : List Char) : Nat :=
  ds.foldl (fun a c => a * 10 + (c.toNat - 48)) 0

mutual

def parseVal : Nat → List Char → Option (Json × List Char)
  | 0, _ => none
  | fuel + 1, cs =>
      match skipWs cs with
      | [] => none
      | c :: rest =>
          if c = '"' then (strLitAux [] rest).map (fun p => (Json.str p.1, p.2))
          else if c = '[' then
            match skipWs rest with
            | ']' :: r2 => some (Json.arr [], r2)
            | r2 => (parseArrItems fuel r2).map (fun p => (Json.arr p.1, p.2))
          else if c = '{' then
            match skipWs rest with
            | '}' :: r2 => some (Json.obj [], r2)
            | r2 => (parseObjItems fuel r2).map (fun p => (Json.obj p.1, p.2))
          else if c = 't' then
            match rest with
            | 'r' :: 'u' :: 'e' :: r2 => some (Json.bool true, r2)
            | _ => none
          else if c = 'f' then
            match rest with
            | 'a' :: 'l' :: 's' :: 'e' :: r2 => some (Json.bool false, r2)
            | _ => none
          else if c = 'n' then
            match rest with
            | 'u' :: 'l' :: 'l' :: r2 => some (Json.null, r2)
            | _ => none
          else if c = '-' then
            let (ds, r2) := takeDigits rest
            if ds.isEmpty then none else some (Json.num (-(digitsToNat ds : Int)), r2)
          else if c.isDigit then
            let (ds, r2) := takeDigits (c :: rest)
            some (Json.num (digitsToNat ds : Int), r2)
          else none

def parseArrItems : Nat → List Char → Option (List Json × List Char)
  | 0, _ => none
  | fuel + 1, cs => do
      let (v, r1) ← parseVal fuel cs
      match skipWs r1 with
      | ',' :: r2 => (parseArrItems fuel r2).map (fun p => (v :: p.1, p.2))
      | ']' :: r2 => some ([v], r2)
      | _ => none

def parseObjItems : Nat → List Char → Option (List (String × Json) × List Char)
  | 0, _ => none
  | fuel + 1, cs =>
      match skipWs cs with
      | '"' :: r1 => do
          let (k, r2) ← strLitAux [] r1
          match skipWs r2 with
          | ':' :: r3 => do
              let (v, r4) ← parseVal fuel r3
              match skipWs r4 with
              | ',' :: r5 => (parseObjItems fuel r5).map (fun p => ((k, v) :: p.1, p.2))
              | '}' :: r5 => some ([(k, v)], r5)
              | _ => none
          | _ => none
      | _ => none

end

/-- The decoder: parse one value and require only whitespace after it, as
json.loads does. -/
def jsonParse (s : String) : Option Json :=
  let cs := s.toList
  match parseVal (cs.length + 1) cs with
  | some (j, rest) => if (skipWs rest).isEmpty then some j else none
  | none => none

/-! ## Concrete fixtures for the closed runs below -/

/-- A deterministic stand-in for the uuid-backed token generator. -/
def freshTok (k : Nat) : String := "TC_GEN" ++ toString k

/-- A model reply whose single record carries no steps field. -/
def exResponseNoSteps : String :=
  "[\x7b\"test_case_id\": \"TC_1\", \"test_case_title\": \"Title\", \"description\": \"Desc\"\x7d]"

/-- A model reply whose two records carry the same test_case_id. -/
def exResponseDupIds : String :=
  "[\x7b\"test_case_id\": \"TC_1\", \"test_case_title\": \"A\", \"description\": \"d\"\x7d, \x7b\"test_case_id\": \"TC_1\", \"test_case_title\": \"B\", \"description\": \"d\"\x7d]"

/-- A heading element (content-only kind). -/
def elHeading : UIElement :=
  { element_id := "e-head", element_type := ElementType.heading, selector := "h1" }

/-- A button element (interactive kind). -/
def elButton : UIElement :=
  { element_id := "e-btn", element_type := ElementType.button, selector := "#go" }

/-- An LLM collaborator that always answers with the no-steps reply. -/
def llmConst : UIElement → Option String := fun _ => some exResponseNoSteps

/-- A test-case generator collaborator returning no cases (an empty list only
logs a warning in process_url; the URL still completes). -/
def gen0 : String → String → List UIElement → List TestCase := fun _ _ _ => []

/-- A URL environment whose crawl found one element. -/
def envOk : UrlEnv :=
  { connectError := none, analyzeResult := (some "T", [elButton]), saveError := none }

/-- A URL environment whose crawl found no elements. -/
def envNoElems : UrlEnv :=
  { connectError := none, analyzeResult := (some "Example", []), saveError := none }

/-- The three-URL job of end-to-end scenario 2: two URLs succeed, one fails. -/
def jobUrls3 : List (String × UrlEnv) :=
  [("https://a.example", envOk), ("https://b.example", envOk), ("https://c.example", envNoElems)]

/-- A crawl environment that navigates to an HTTP 404 and otherwise behaves. -/
def envHttp404 : CrawlEnv :=
  { initRaises := false, newPageRaises := false, authRaises := false,
    navigation := some (some 404), settleRaises := false,
    titleResult := some "Not Found", extractResult := some [],
    contentResult := some "<html></html>", cacheStoreRaises := false }

/-- A loads collaborator that always fails to decode. -/
def loadsNone : String → Option Json := fun _ => none

/-! ## Helper lemmas -/

theorem coerceRecord_related (fresh : Nat → String) (eid : Option String) (k : Nat)
    (rec : List (String × Json)) (out : TestCase × Nat)
    (h : coerceRecord fresh eid k rec = some out) : out.1.related_element_id = eid := by
  unfold coerceRecord at h
  split at h
  · cases h; rfl
  · simp at h

theorem coerceRecords_length (fresh : Nat → String) (eid : Option String) :
    ∀ (items : List Json) (k : Nat) (tcs : List TestCase),
      coerceRecords fresh eid k items = some tcs → tcs.length = items.length := by
  intro items
  induction items with
  | nil =>
      intro k tcs h
      simp only [coerceRecords, Option.some.injEq] at h
      subst h
      rfl
  | cons j rest ih =>
      intro k tcs h
      cases j with
      | obj rec =>
          simp only [coerceRecords] at h
          cases hr : coerceRecord fresh eid k rec with
          | none => rw [hr] at h; simp at h
          | some out =>
              obtain ⟨tc, k2⟩ := out
              rw [hr] at h
              dsimp only at h
              cases hrest : coerceRecords fresh eid k2 rest with
              | none => rw [hrest] at h; simp at h
              | some tcs2 =>
                  rw [hrest] at h
                  dsimp only at h
                  cases h
                  simp [ih k2 tcs2 hrest]
      | null => simp [coerceRecords] at h
      | bool b => simp [coerceRecords] at h
      | num n => simp [coerceRecords] at h
      | str s => simp [coerceRecords] at h
      | arr a => simp [coerceRecords] at h

theorem coerceRecords_mem_related (fresh : Nat → String) (eid : Option String) :
    ∀ (items : List Json) (k : Nat) (tcs : List TestCase),
      coerceRecords fresh eid k items = some tcs →
      ∀ tc ∈ tcs, tc.related_element_id = eid := by
  intro items
  induction items with
  | nil =>
      intro k tcs h
      simp only [coerceRecords, Option.some.injEq] at h
      subst h
      intro tc hmem
      simp at hmem
  | cons j rest ih =>
      intro k tcs h
      cases j with
      | obj rec =>
          simp only [coerceRecords] at h
          cases hr : coerceRecord fresh eid k rec with
          | none => rw [hr] at h; simp at h
          | some out =>
              obtain ⟨tc, k2⟩ := out
              rw [hr] at h
              dsimp only at h
              cases hrest : coerceRecords fresh eid k2 rest with
              | none => rw [hrest] at h; simp at h
              | some tcs2 =>
                  rw [hrest] at h
                  dsimp only at h
                  cases h
                  intro tc2 hmem
                  rcases List.mem_cons.mp hmem with h1 | h2
                  · subst h1
                    exact coerceRecord_related fresh eid k rec (tc2, k2) hr
                  · exact ih k2 tcs2 hrest tc2 h2
      | null => simp [coerceRecords] at h
      | bool b => simp [coerceRecords] at h
      | num n => simp [coerceRecords] at h
      | str s => simp [coerceRecords] at h
      | arr a => simp [coerceRecords] at h

theorem parse_mem_related (loads : String → Option Json) (fresh : Nat → String)
    (response url : String) (eid : Option String) (tc : TestCase)
    (h : tc ∈ parse_test_cases_response loads fresh response url eid) :
    tc.related_element_id = eid := by
  unfold parse_test_cases_response at h
  cases hl : loads (extractJsonContent response) with
  | none => rw [hl] at h; simp at h
  | some j =>
      rw [hl] at h
      cases j with
      | arr items =>
          simp only at h
          cases hr : coerceRecords fresh eid 0 items with
          | none => rw [hr] at h; simp at h
          | some tcs =>
              rw [hr] at h
              exact coerceRecords_mem_related fresh eid items 0 tcs hr tc h
      | null => simp at h
      | bool b => simp at h
      | num n => simp at h
      | str s => simp at h
      | obj o => simp at h

/-! ## Claim theorems -/

/-- C1 counterexample: with limit 2 and an initially empty window, three
admit calls in the same clock second all return true.  After the second call,
two admissions have been granted for the domain within the last 60 seconds,
so the claim requires the third call to return false; the code returns true,
because both admissions were recorded under the single sorted-set member
"1000" (ZADD keys members by str(now), so same-second admissions collapse to
one entry and the cardinality check undercounts). -/
theorem check_rate_limit_same_second_counterexample :
    (check_rate_limit true [] 1000 2).1 = true
    ∧ (check_rate_limit true (check_rate_limit true [] 1000 2).2 1000 2).1 = true
    ∧ (check_rate_limit true (check_rate_limit true (check_rate_limit true [] 1000 2).2 1000 2).2
        1000 2).1 = true
    ∧ (check_rate_limit true (check_rate_limit true [] 1000 2).2 1000 2).2
        = [("1000", 1000)] := by
  decide

/-- C1 (amended): on each call the window is first purged of entries with
score in [0, now - 60]; if the count of remaining entries (distinct admission
seconds, not admissions) is at least the limit, the call returns false and
records nothing; otherwise it returns true and records the current second
(idempotently: admitting in an already-recorded second does not grow the
window); and for a positive limit, once every recorded entry is at least 60
seconds old the window is empty and the call returns true with a fresh
one-entry window. -/
theorem check_rate_limit_window_semantics (z : ZSet) (now limit : Int) :
    (limit ≤ (zcard (zremrangebyscore z 0 (now - 60)) : Int) →
      check_rate_limit true z now limit = (false, zremrangebyscore z 0 (now - 60)))
    ∧ ((zcard (zremrangebyscore z 0 (now - 60)) : Int) < limit →
      check_rate_limit true z now limit
        = (true, zadd (zremrangebyscore z 0 (now - 60)) (toString now) now))
    ∧ (0 < limit → (∀ p ∈ z, 0 ≤ p.2 ∧ p.2 ≤ now - 60) →
      check_rate_limit true z now limit = (true, [(toString now, now)]))
    ∧ ((zcard (zremrangebyscore z 0 (now - 60)) : Int) < limit →
      toString now ∈ (zremrangebyscore z 0 (now - 60)).map Prod.fst →
      zcard (check_rate_limit true z now limit).2
        = zcard (zremrangebyscore z 0 (now - 60))) := by
  refine ⟨?_, ?_, ?_, ?_⟩
  · intro h
    simp [check_rate_limit, h]
  · intro h
    simp [check_rate_limit, not_le.mpr h]
  · intro hl hall
    have hz : zremrangebyscore z 0 (now - 60) = [] := by
      simp only [zremrangebyscore, List.filter_eq_nil_iff]
      intro p hp
      simp [(hall p hp).1, (hall p hp).2]
    simp [check_rate_limit, hz, zcard, zadd, not_le.mpr hl]
  · intro h hmem
    have hany : (zremrangebyscore z 0 (now - 60)).any (fun p => p.1 == toString now) = true := by
      simp only [List.any_eq_true]
      rcases List.mem_map.mp hmem with ⟨p, hp, hfst⟩
      exact ⟨p, hp, by simp [hfst]⟩
    simp only [check_rate_limit, zcard, zadd, hany, Bool.not_true, Bool.false_eq_true,
      if_false, if_true]
    simp only [zcard] at h
    rw [if_neg (not_le.mpr h)]
    simp

/-- Witness for check_rate_limit_window_semantics: a window whose only entry
is 60 seconds old is purged, and the next call admits with a fresh window. -/
theorem check_rate_limit_window_semantics_witness :
    check_rate_limit true [("100", 100)] 160 1 = (true, [("160", 160)]) :=
  (check_rate_limit_window_semantics [("100", 100)] 160 1).2.2.1 (by decide) (by decide)

/-- C10: with the store client not connected, check_rate_limit returns true
for every window state, every time, and every limit (zero included), and the
window is left untouched — rate limiting fails open. -/
theorem check_rate_limit_disconnected_fails_open (z : ZSet) (now limit : Int) :
    check_rate_limit false z now limit = (true, z) := rfl

/-- C2 counterexample: a decodable model reply whose single record carries no
steps field is parsed into a TestCase whose steps list is empty — no
placeholder step is substituted anywhere in _parse_test_cases_response, and
the TestCase schema places no lower bound on the number of steps, so the
claim "a case with zero steps is never produced" fails on this input. -/
theorem parse_zero_steps_counterexample :
    parse_test_cases_response jsonParse freshTok exResponseNoSteps "https://example.com" none
      = [{ test_case_id := "TC_1", test_case_title := "Title",
           type := TestCaseType.functional, priority := TestCasePriority.medium,
           description := "Desc", preconditions := [], steps := [],
           related_element_id := none }] := by
  decide

/-- C2 (amended): the parser defaults, it does not enforce: a step record
without a step_number field gets step_number 1, but a supplied step_number is
passed through unvalidated (so values below 1 survive), and a record without
a steps field yields a TestCase whose steps list is empty (no placeholder
step is substituted). -/
theorem parse_step_defaults :
    (∀ (o : List (String × Json)) (st : TestStep),
        coerceStep (Json.obj o) = some st → jlookup o "step_number" = none →
        st.step_number = 1)
    ∧ (∀ (o : List (String × Json)) (st : TestStep) (n : Int),
        coerceStep (Json.obj o) = some st → jlookup o "step_number" = some (Json.num n) →
        st.step_number = n)
    ∧ (∀ (fresh : Nat → String) (eid : Option String) (k : Nat)
        (rec : List (String × Json)) (out : TestCase × Nat),
        coerceRecord fresh eid k rec = some out → jlookup rec "steps" = none →
        out.1.steps = []) := by
  refine ⟨?_, ?_, ?_⟩
  · intro o st h hn
    have h1 : stepNumberOf o = some 1 := by simp [stepNumberOf, hn]
    unfold coerceStep at h
    dsimp only at h
    rw [h1] at h
    split at h
    · rename_i e1 e2 e3
      cases e1
      cases h
      rfl
    · simp at h
  · intro o st n h hn
    have h1 : stepNumberOf o = some n := by simp [stepNumberOf, hn, jsonToInt]
    unfold coerceStep at h
    dsimp only at h
    rw [h1] at h
    split at h
    · rename_i e1 e2 e3
      cases e1
      cases h
      rfl
    · simp at h
  · intro fresh eid k rec out h hn
    have h1 : stepsOf rec = some [] := by simp [stepsOf, hn]
    unfold coerceRecord at h
    rw [h1] at h
    split at h
    · rename_i e1 e2 e3 e4 e5 e6 e7
      cases e2
      cases h
      rfl
    · simp at h

/-- Witness for parse_step_defaults: a step record without step_number is
coerced with step_number 1; one carrying step_number 0 keeps the 0; a record
without steps is coerced to a TestCase with an empty steps list. -/
theorem parse_step_defaults_witness :
    coerceStep (Json.obj [("action", Json.str "a")])
      = some { step_number := 1, action := "a",
               expected_result := "No expected result provided" }
    ∧ ({ step_number := 1, action := "a",
         expected_result := "No expected result provided" } : TestStep).step_number = 1
    ∧ ({ step_number := 0, action := "No action provided",
         expected_result := "No expected result provided" } : TestStep).step_number = 0
    ∧ ({ test_case_id := "TC_GEN0", test_case_title := "No title provided",
         type := TestCaseType.functional, priority := TestCasePriority.medium,
         description := "No description provided", preconditions := [], steps := [],
         related_element_id := none } : TestCase).steps = [] :=
  ⟨rfl,
   parse_step_defaults.1 [("action", Json.str "a")] _ rfl rfl,
   parse_step_defaults.2.1 [("step_number", Json.num 0)] _ 0 rfl rfl,
   parse_step_defaults.2.2 freshTok none 0 [] _ rfl rfl⟩

/-- C6: for every model reply and every behaviour of the JSON decoder, a
decode failure yields the empty list, and in general the parser returns
either the empty list or a fully converted batch with exactly one TestCase
per decoded record — never a partial list (a record-level failure anywhere
drops the whole batch), and the function is total, so no failure escapes to
the caller. -/
theorem parse_failure_yields_empty (loads : String → Option Json) (fresh : Nat → String)
    (response url : String) (eid : Option String) :
    (loads (extractJsonContent response) = none →
      parse_test_cases_response loads fresh response url eid = [])
    ∧ (parse_test_cases_response loads fresh response url eid = []
       ∨ ∃ items, loads (extractJsonContent response) = some (Json.arr items)
           ∧ (parse_test_cases_response loads fresh response url eid).length
               = items.length) := by
  constructor
  · intro h
    unfold parse_test_cases_response
    rw [h]
  · unfold parse_test_cases_response
    cases hl : loads (extractJsonContent response) with
    | none => exact Or.inl rfl
    | some j =>
        cases j with
        | arr items =>
            cases hr : coerceRecords fresh eid 0 items with
            | none => exact Or.inl (by simp [hr])
            | some tcs =>
                refine Or.inr ⟨items, rfl, ?_⟩
                simp only [hr, Option.getD_some]
                exact coerceRecords_length fresh eid items 0 tcs hr
        | null => exact Or.inl rfl
        | bool b => exact Or.inl rfl
        | num n => exact Or.inl rfl
        | str s => exact Or.inl rfl
        | obj o => exact Or.inl rfl

/-- Witness for parse_failure_yields_empty: an undecodable reply (here: a
decoder that fails, matching json.loads on this unstructured text) yields the
empty list, so the page-level test-case count for such a reply is 0. -/
theorem parse_failure_yields_empty_witness :
    parse_test_cases_response loadsNone freshTok "not structured text" "u" none = [] :=
  (parse_failure_yields_empty loadsNone freshTok "not structured text" "u" none).1 rfl

set_option maxRecDepth 8192 in
/-- C8 counterexample: a decodable model reply whose two records both carry
test_case_id "TC_1" is parsed into two TestCases with the same id — the
parser replaces only missing or falsy ids (lines 457-458) and never checks a
supplied id against the ones already used, so ids are not unique within the
batch. -/
theorem parse_duplicate_ids_counterexample :
    (parse_test_cases_response jsonParse freshTok exResponseDupIds "u" none).map
        TestCase.test_case_id = ["TC_1", "TC_1"]
    ∧ ¬ ((parse_test_cases_response jsonParse freshTok exResponseDupIds "u" none).map
        TestCase.test_case_id).Nodup := by
  constructor
  · decide
  · decide

/-- C8 (amended): a missing, null, or otherwise falsy (e.g. empty-string)
test_case_id is replaced by a freshly generated token; a non-falsy supplied
id is kept verbatim, even when it duplicates the id of another record in the
batch. -/
theorem parse_id_fallback (fresh : Nat → String) (eid : Option String) (k : Nat)
    (rec : List (String × Json)) (out : TestCase × Nat)
    (h : coerceRecord fresh eid k rec = some out) :
    (jlookup rec "test_case_id" = none → out.1.test_case_id = fresh k)
    ∧ (∀ v, jlookup rec "test_case_id" = some v → jfalsy v = true →
        out.1.test_case_id = fresh k)
    ∧ (∀ s, jlookup rec "test_case_id" = some (Json.str s) → s ≠ "" →
        out.1.test_case_id = s) := by
  refine ⟨?_, ?_, ?_⟩
  · intro hn
    have h1 : tcIdOf fresh k rec = some (fresh k, k + 1) := by simp [tcIdOf, hn]
    unfold coerceRecord at h
    rw [h1] at h
    split at h
    · rename_i e1 e2 e3 e4 e5 e6 e7
      cases e1
      cases h
      rfl
    · simp at h
  · intro v hv hf
    have h1 : tcIdOf fresh k rec = some (fresh k, k + 1) := by simp [tcIdOf, hv, hf]
    unfold coerceRecord at h
    rw [h1] at h
    split at h
    · rename_i e1 e2 e3 e4 e5 e6 e7
      cases e1
      cases h
      rfl
    · simp at h
  · intro s hv hs
    have h1 : tcIdOf fresh k rec = some (s, k) := by
      simp [tcIdOf, hv, jfalsy, jsonToStr, hs]
    unfold coerceRecord at h
    rw [h1] at h
    split at h
    · rename_i e1 e2 e3 e4 e5 e6 e7
      cases e1
      cases h
      rfl
    · simp at h

/-- Witness for parse_id_fallback: an empty record gets the generated token;
a record with the empty-string id gets the generated token too. -/
theorem parse_id_fallback_witness :
    coerceRecord freshTok none 0 []
      = some ({ test_case_id := "TC_GEN0", test_case_title := "No title provided",
                type := TestCaseType.functional, priority := TestCasePriority.medium,
                description := "No description provided", preconditions := [],
                steps := [], related_element_id := none }, 1)
    ∧ ({ test_case_id := "TC_GEN0", test_case_title := "No title provided",
         type := TestCaseType.functional, priority := TestCasePriority.medium,
         description := "No description provided", preconditions := [],
         steps := [], related_element_id := none } : TestCase).test_case_id
        = freshTok 0 :=
  ⟨rfl, (parse_id_fallback freshTok none 0 [] _ rfl).1 rfl⟩

/-- C9: a TestCase parsed from an element-level call carries
related_element_id = the element's id, one parsed from a page-level call
carries related_element_id = None (the parser overrides whatever the model
supplied, line 480), and consequently every non-None related_element_id
produced by generate_test_cases names an element of the same analysis. -/
theorem related_element_id_consistency :
    (∀ (llm : UIElement → Option String) (loads : String → Option Json)
        (fresh : Nat → String) (url title : String) (element : UIElement)
        (all_elements : List UIElement) (tc : TestCase),
        tc ∈ (generate_element_test_cases llm loads fresh url title element all_elements).1 →
        tc.related_element_id = some element.element_id)
    ∧ (∀ (llmp : String → String → List UIElement → Option String)
        (loads : String → Option Json) (fresh : Nat → String) (url title : String)
        (elements : List UIElement) (tc : TestCase),
        tc ∈ generate_page_level_test_cases llmp loads fresh url title elements →
        tc.related_element_id = none)
    ∧ (∀ (llmp : String → String → List UIElement → Option String)
        (llm : UIElement → Option String) (loads : String → Option Json)
        (fresh : Nat → String) (url title : String) (elements : List UIElement)
        (tc : TestCase),
        tc ∈ generate_test_cases llmp llm loads fresh url title elements →
        tc.related_element_id = none
          ∨ ∃ e, e ∈ elements ∧ tc.related_element_id = some e.element_id) := by
  have hElem : ∀ (llm : UIElement → Option String) (loads : String → Option Json)
      (fresh : Nat → String) (url title : String) (element : UIElement)
      (all_elements : List UIElement) (tc : TestCase),
      tc ∈ (generate_element_test_cases llm loads fresh url title element all_elements).1 →
      tc.related_element_id = some element.element_id := by
    intro llm loads fresh url title element all_elements tc h
    unfold generate_element_test_cases at h
    split at h
    · simp at h
    · cases hl : llm element with
      | none => rw [hl] at h; simp at h
      | some response =>
          rw [hl] at h
          dsimp only at h
          exact parse_mem_related loads fresh response url (some element.element_id) tc h
  have hPage : ∀ (llmp : String → String → List UIElement → Option String)
      (loads : String → Option Json) (fresh : Nat → String) (url title : String)
      (elements : List UIElement) (tc : TestCase),
      tc ∈ generate_page_level_test_cases llmp loads fresh url title elements →
      tc.related_element_id = none := by
    intro llmp loads fresh url title elements tc h
    unfold generate_page_level_test_cases at h
    cases hl : llmp url title elements with
    | none => rw [hl] at h; simp at h
    | some response =>
        rw [hl] at h
        dsimp only at h
        exact parse_mem_related loads fresh response url none tc h
  refine ⟨hElem, hPage, ?_⟩
  intro llmp llm loads fresh url title elements tc h
  unfold generate_test_cases at h
  rcases List.mem_append.mp h with h1 | h2
  · exact Or.inl (hPage llmp loads fresh url title elements tc h1)
  · rcases List.mem_flatMap.mp h2 with ⟨e, he, hmem⟩
    exact Or.inr ⟨e, he, hElem llm loads fresh url title e elements tc hmem⟩

set_option maxRecDepth 8192 in
/-- Witness for related_element_id_consistency: the case parsed from an
element-level call for the button element carries its element_id. -/
theorem related_element_id_consistency_witness :
    ({ test_case_id := "TC_1", test_case_title := "Title",
       type := TestCaseType.functional, priority := TestCasePriority.medium,
       description := "Desc", preconditions := [], steps := [],
       related_element_id := some "e-btn" } : TestCase)
      ∈ (generate_element_test_cases llmConst jsonParse freshTok "u" "t" elButton
          [elButton]).1
    ∧ ({ test_case_id := "TC_1", test_case_title := "Title",
         type := TestCaseType.functional, priority := TestCasePriority.medium,
         description := "Desc", preconditions := [], steps := [],
         related_element_id := some "e-btn" } : TestCase).related_element_id
        = some elButton.element_id :=
  ⟨by decide,
   related_element_id_consistency.1 llmConst jsonParse freshTok "u" "t" elButton
     [elButton] _ (by decide)⟩

/-- C7: an element whose kind is heading, paragraph, image, video, or
generic-container makes _generate_element_test_cases return the empty list
immediately with the LLM collaborator never consulted; for every other kind
the LLM call is attempted. -/
theorem element_kind_exclusion (llm : UIElement → Option String)
    (loads : String → Option Json) (fresh : Nat → String) (url title : String)
    (element : UIElement) (all_elements : List UIElement) :
    (element.element_type ∈ ([ElementType.heading, ElementType.paragraph,
        ElementType.image, ElementType.video, ElementType.general_container] :
        List ElementType) →
      generate_element_test_cases llm loads fresh url title element all_elements
        = ([], false))
    ∧ (element.element_type ∉ ([ElementType.heading, ElementType.paragraph,
        ElementType.image, ElementType.video, ElementType.general_container] :
        List ElementType) →
      (generate_element_test_cases llm loads fresh url title element all_elements).2
        = true) := by
  constructor
  · intro hmem
    have hcond : element.element_type.value ∈ content_only_types
        ∧ element.element_type.value ≠ "link" := by
      simp only [List.mem_cons, List.not_mem_nil, or_false] at hmem
      rcases hmem with h | h | h | h | h <;>
        rw [h] <;> simp [ElementType.value, content_only_types]
    unfold generate_element_test_cases
    rw [if_pos hcond]
  · intro hn
    have hcond : ¬(element.element_type.value ∈ content_only_types
        ∧ element.element_type.value ≠ "link") := by
      cases hv : element.element_type <;>
        simp_all [content_only_types, ElementType.value]
    unfold generate_element_test_cases
    rw [if_neg hcond]
    cases llm element <;> rfl

/-- Witness for element_kind_exclusion: a heading element yields no cases and
no LLM call; a button element reaches the LLM call. -/
theorem element_kind_exclusion_witness :
    generate_element_test_cases llmConst jsonParse freshTok "u" "t" elHeading []
      = ([], false)
    ∧ (generate_element_test_cases llmConst jsonParse freshTok "u" "t" elButton []).2
      = true :=
  ⟨(element_kind_exclusion llmConst jsonParse freshTok "u" "t" elHeading []).1 (by decide),
   (element_kind_exclusion llmConst jsonParse freshTok "u" "t" elButton []).2 (by decide)⟩

/-- C3: for a stored job with a non-empty URL list of length M yielding N
per-URL completed outcomes: N = M sets the job status to Completed with no
message, 0 < N < M sets it to Completed with the "Partially completed: N/M
URLs processed" message, N = 0 sets it to Failed; and the returned summary
reports success_count = N over all M URLs. -/
theorem process_job_aggregation
    (gen : String → String → List UIElement → List TestCase)
    (job_id : String) (jobUrls : List (String × UrlEnv)) (h : jobUrls ≠ []) :
    ((jobUrls.map (fun p => processUrl gen p.1 p.2)).countP
        (fun r => decide (r.status = UrlStatus.completed)) = jobUrls.length →
      (processJob gen job_id (some jobUrls)).dbStatus = JobStatus.completed
      ∧ (processJob gen job_id (some jobUrls)).dbMessage = none)
    ∧ (0 < (jobUrls.map (fun p => processUrl gen p.1 p.2)).countP
        (fun r => decide (r.status = UrlStatus.completed)) →
       (jobUrls.map (fun p => processUrl gen p.1 p.2)).countP
        (fun r => decide (r.status = UrlStatus.completed)) < jobUrls.length →
      (processJob gen job_id (some jobUrls)).dbStatus = JobStatus.completed
      ∧ (processJob gen job_id (some jobUrls)).dbMessage
          = some ("Partially completed: "
              ++ toString ((jobUrls.map (fun p => processUrl gen p.1 p.2)).countP
                    (fun r => decide (r.status = UrlStatus.completed)))
              ++ "/" ++ toString jobUrls.length ++ " URLs processed"))
    ∧ ((jobUrls.map (fun p => processUrl gen p.1 p.2)).countP
        (fun r => decide (r.status = UrlStatus.completed)) = 0 →
      (processJob gen job_id (some jobUrls)).dbStatus = JobStatus.failed
      ∧ (processJob gen job_id (some jobUrls)).dbMessage
          = some "All URLs failed processing")
    ∧ (∃ st, (processJob gen job_id (some jobUrls)).ret
        = JobReturn.ok st jobUrls.length
            ((jobUrls.map (fun p => processUrl gen p.1 p.2)).countP
              (fun r => decide (r.status = UrlStatus.completed)))
            (jobUrls.map (fun p => processUrl gen p.1 p.2))) := by
  refine ⟨?_, ?_, ?_, ?_⟩
  · intro hN
    simp [processJob, hN]
  · intro h0 hM
    unfold processJob
    dsimp only
    rw [if_neg (Nat.ne_of_lt hM), if_pos h0]
    exact ⟨rfl, rfl⟩
  · intro hN
    unfold processJob
    dsimp only
    have hne : ¬ (jobUrls.map (fun p => processUrl gen p.1 p.2)).countP
        (fun r => decide (r.status = UrlStatus.completed)) = jobUrls.length := by
      rw [hN]
      exact fun hc => h (List.eq_nil_of_length_eq_zero hc.symm)
    have hnlt : ¬ 0 < (jobUrls.map (fun p => processUrl gen p.1 p.2)).countP
        (fun r => decide (r.status = UrlStatus.completed)) := by
      rw [hN]
      exact lt_irrefl 0
    rw [if_neg hne, if_neg hnlt]
    exact ⟨rfl, rfl⟩
  · unfold processJob
    dsimp only
    split
    · exact ⟨"completed", rfl⟩
    · split
      · exact ⟨"partially_completed", rfl⟩
      · exact ⟨"failed", rfl⟩

/-- Witness for process_job_aggregation: the three-URL job of end-to-end
scenario 2 (two URLs succeed, one yields no elements) ends Completed with the
"Partially completed: 2/3 URLs processed" message. -/
theorem process_job_aggregation_witness :
    (processJob gen0 "job1" (some jobUrls3)).dbStatus = JobStatus.completed
    ∧ (processJob gen0 "job1" (some jobUrls3)).dbMessage
        = some "Partially completed: 2/3 URLs processed" :=
  (process_job_aggregation gen0 "job1" jobUrls3 (by decide)).2.1 (by decide) (by decide)

/-- C4: a URL whose crawl returns zero elements makes process_url record a
failed outcome whose error text embeds "No UI elements found at URL: <url>"
(prefixed by process_url's generic "Error processing URL <url>: " wrapper);
the job loop still produces one outcome per URL of the batch (the failure
aborts nothing), and a job whose single URL yields zero elements ends with
status Failed. -/
theorem process_url_no_elements
    (gen : String → String → List UIElement → List TestCase)
    (job_id url : String) (env : UrlEnv) (pre post : List (String × UrlEnv))
    (hc : env.connectError = none) (he : env.analyzeResult.2 = []) :
    (processUrl gen url env).status = UrlStatus.failed
    ∧ (processUrl gen url env).error
        = some ("Error processing URL " ++ url ++ ": "
            ++ ("No UI elements found at URL: " ++ url))
    ∧ (∃ st sc, (processJob gen job_id (some (pre ++ (url, env) :: post))).ret
        = JobReturn.ok st (pre ++ (url, env) :: post).length sc
            ((pre ++ (url, env) :: post).map (fun p => processUrl gen p.1 p.2))
        ∧ ((pre ++ (url, env) :: post).map (fun p => processUrl gen p.1 p.2)).length
            = pre.length + 1 + post.length)
    ∧ (processJob gen job_id (some [(url, env)])).dbStatus = JobStatus.failed := by
  have hfail : processUrl gen url env
      = { status := UrlStatus.failed, url := url,
          error := some ("Error processing URL " ++ url ++ ": "
            ++ ("No UI elements found at URL: " ++ url)),
          element_count := 0, test_case_count := 0 } := by
    unfold processUrl
    rw [hc]
    dsimp only
    rw [he]
    rfl
  refine ⟨by rw [hfail], by rw [hfail], ?_, ?_⟩
  · unfold processJob
    dsimp only
    split
    · exact ⟨"completed", _, rfl, by simp; omega⟩
    · split
      · exact ⟨"partially_completed", _, rfl, by simp; omega⟩
      · exact ⟨"failed", _, rfl, by simp; omega⟩
  · simp [processJob, hfail]

/-- Witness for process_url_no_elements: end-to-end scenario 1 — a single-URL
job whose crawl finds zero elements records a failed outcome for that URL and
the job ends Failed. -/
theorem process_url_no_elements_witness :
    (processUrl gen0 "https://example.com" envNoElems).status = UrlStatus.failed
    ∧ (processUrl gen0 "https://example.com" envNoElems).error
        = some ("Error processing URL https://example.com: "
            ++ "No UI elements found at URL: https://example.com")
    ∧ (processJob gen0 "j1" (some [("https://example.com", envNoElems)])).dbStatus
        = JobStatus.failed :=
  ⟨(process_url_no_elements gen0 "j1" "https://example.com" envNoElems [] [] rfl rfl).1,
   (process_url_no_elements gen0 "j1" "https://example.com" envNoElems [] [] rfl rfl).2.1,
   (process_url_no_elements gen0 "j1" "https://example.com" envNoElems [] [] rfl rfl).2.2.2⟩

/-- C5: provided the lazy browser initialization did not itself fail (that
step precedes the try block and re-raises), analyze_url never lets an
exception escape; whenever a page was created it is closed on exit, on the
success as well as on the failure path; and a missing navigation response, an
HTTP status of at least 400, or an exception raised during page creation,
authentication, navigation, settling, title or markup reading, extraction, or
snapshot caching makes the call return (None, []). -/
theorem analyze_url_failure_containment (env : CrawlEnv)
    (hinit : env.initRaises = false) :
    (analyze_url env).ret.isSome = true
    ∧ ((analyze_url env).pageCreated = true → (analyze_url env).pageClosed = true)
    ∧ ((env.newPageRaises = true ∨ env.authRaises = true
        ∨ env.navigation = none ∨ env.navigation = some none
        ∨ (∃ s, env.navigation = some (some s) ∧ 400 ≤ s)
        ∨ env.settleRaises = true ∨ env.titleResult = none
        ∨ env.extractResult = none ∨ env.contentResult = none
        ∨ env.cacheStoreRaises = true) →
      (analyze_url env).ret = some (none, [])) := by
  obtain ⟨i, np, au, nav, se, ti, ex, co, ca⟩ := env
  dsimp only at hinit
  subst hinit
  refine ⟨?_, ?_, ?_⟩
  · cases np <;> simp [analyze_url]
  · cases np <;> simp [analyze_url]
  · intro hfail
    cases np
    case true => simp [analyze_url]
    case false =>
    cases au
    case true => simp [analyze_url]
    case false =>
    rcases nav with _ | nv
    · simp [analyze_url]
    rcases nv with _ | stat
    · simp [analyze_url]
    by_cases h4 : 400 ≤ stat
    · simp [analyze_url, h4]
    cases se with
    | true => simp [analyze_url, h4]
    | false =>
      rcases ti with _ | t
      · simp [analyze_url, h4]
      rcases ex with _ | es
      · simp [analyze_url, h4]
      rcases co with _ | c
      · simp [analyze_url, h4]
      cases ca with
      | true => simp [analyze_url, h4]
      | false =>
        rcases hfail with h | h | h | h | ⟨s2, hs2, h42⟩ | h | h | h | h | h <;> simp_all <;>
          omega

/-- Witness for analyze_url_failure_containment: navigating to an HTTP 404
returns (None, []) and the page is closed. -/
theorem analyze_url_failure_containment_witness :
    (analyze_url envHttp404).ret = some (none, [])
    ∧ (analyze_url envHttp404).pageClosed = true :=
  ⟨(analyze_url_failure_containment envHttp404 rfl).2.2
      (Or.inr (Or.inr (Or.inr (Or.inr (Or.inl ⟨404, rfl, by decide⟩))))),
   (analyze_url_failure_containment envHttp404 rfl).2.1 rfl⟩
